import Mathlib

/-!
Verification of the library-catalog front end (books search/list view,
add-book form, delete-book control) against its specification.

The TypeScript source is shallowly embedded: JSX render branches become
functions from props/state to render descriptions, event handlers become
state-transition functions, and the query cache becomes an explicit
key-to-freshness store.  JavaScript truthiness on optional values
(`user?.is_superuser`, `query || undefined`, `authors || "No authors"`,
`error.message || fallback`) is embedded explicitly.
-/

/-- The current user as exposed by the auth context (`useAuth`) or returned
by `readUserMe`.  `is_superuser` is an optional boolean field, so absence of
the flag is representable. -/
structure User where
  email : String
  full_name : Option String
  is_superuser : Option Bool
  deriving Repr, DecidableEq

/-- JS truthiness of `user?.is_superuser`: `false` when there is no user,
when the flag is absent, or when it is `false`. -/
def userIsSuperuser (user : Option User) : Bool :=
  match user with
  | none => false
  | some u => u.is_superuser.getD false

/-- `BookPublic` from the generated client: row identity for the generic
table and the delete control. -/
structure BookPublic where
  isbn : String
  title : String
  deriving Repr, DecidableEq

/-- Arguments of a `BooksService.searchBooks` call. -/
structure SearchBooksArgs where
  query : Option String
  skip : Nat
  limit : Nat
  deriving Repr, DecidableEq

/-- A react-query options object: the fetch arguments of its `queryFn`
together with its `queryKey`. -/
structure BooksQueryOptions where
  queryArgs : SearchBooksArgs
  queryKey : List String
  deriving Repr, DecidableEq

/-- `getBooksQueryOptions` from `routes/_layout/books/index.tsx`:
`queryFn: () => BooksService.searchBooks({ query: query || undefined, skip: 0, limit: 100 })`
with `queryKey: ["books", query]`.  The JS expression `query || undefined`
maps the empty string to `undefined` (here `none`) and keeps any other
string. -/
def getBooksQueryOptions (query : String) : BooksQueryOptions :=
  { queryArgs :=
      { query := if query = "" then none else some query
      , skip := 0
      , limit := 100 }
  , queryKey := ["books", query] }

/-- Local state of the `Books` component: the live input value
(`searchQuery`) and the committed query (`activeQuery`), both initialised
to `""` by `useState("")`. -/
structure BooksState where
  searchQuery : String
  activeQuery : String
  deriving Repr, DecidableEq

/-- `handleSearch`: `e.preventDefault(); setActiveQuery(searchQuery)` —
commits the live input verbatim as the active query. -/
def handleSearch (s : BooksState) : BooksState :=
  { s with activeQuery := s.searchQuery }

/-- `handleClear`: `setSearchQuery(""); setActiveQuery("")`. -/
def handleClear (_s : BooksState) : BooksState :=
  { searchQuery := "", activeQuery := "" }

/-- `BooksTableContent` fetches via
`useSuspenseQuery(getBooksQueryOptions(query))` where `query` is the
committed `activeQuery`. -/
def booksTableQuery (s : BooksState) : BooksQueryOptions :=
  getBooksQueryOptions s.activeQuery

/-- Conditional affordances in the `Books` header. -/
inductive Affordance
  | addBookLink
  deriving Repr, DecidableEq

/-- The header of the `Books` view renders the "Add Book" link guarded by
`user?.is_superuser && (<Link to="/books/add">...)`: a falsy guard renders
nothing. -/
def booksHeaderAffordances (user : Option User) : List Affordance :=
  if userIsSuperuser user then [Affordance.addBookLink] else []

/-- What the `DeleteBook` component returns. -/
inductive DeleteBookRender
  | nothing
  | iconAndDialog
  deriving Repr, DecidableEq

/-- `DeleteBook`: `if (!user?.is_superuser) return null` — otherwise it
renders the trash icon button and the confirmation dialog. -/
def deleteBookRender (user : Option User) : DeleteBookRender :=
  if !(userIsSuperuser user) then DeleteBookRender.nothing
  else DeleteBookRender.iconAndDialog

/-- The `authors` cell of `searchColumns`:
`row.original.authors || "No authors"` — `null` and `""` are both falsy. -/
def authorsCell (authors : Option String) : String :=
  match authors with
  | none => "No authors"
  | some a => if a = "" then "No authors" else a

/-- A redirect thrown from a route guard; `toRoute` is the `to` field of
the thrown `redirect` object. -/
structure Redirect where
  toRoute : String
  deriving Repr, DecidableEq

/-- `Route.beforeLoad` of `routes/_layout/books/add.tsx`: await
`UsersService.readUserMe()`; `if (!user.is_superuser) throw redirect({ to: "/books" })`.
The argument is the user the server returned. -/
def beforeLoad (fetched : User) : Except Redirect Unit :=
  if !(fetched.is_superuser.getD false) then Except.error { toRoute := "/books" }
  else Except.ok ()

/-- Values of the add-book form (`useForm` with all defaults `""`). -/
structure BookFormValues where
  isbn : String
  title : String
  authorName : String
  deriving Repr, DecidableEq

/-- `defaultValues` of the `useForm` call. -/
def defaultFormValues : BookFormValues :=
  { isbn := "", title := "", authorName := "" }

/-- Outcome of visiting the add route. -/
inductive AddRouteOutcome
  | redirected (toRoute : String)
  | rendered (form : BookFormValues)
  deriving Repr, DecidableEq

/-- Router semantics for the add route: `beforeLoad` runs before the
component mounts; a thrown redirect prevents the `AddBook` component —
and hence its `useForm` state — from ever being created. -/
def addRouteLoad (fetched : User) : AddRouteOutcome :=
  match beforeLoad fetched with
  | Except.error r => AddRouteOutcome.redirected r.toRoute
  | Except.ok () => AddRouteOutcome.rendered defaultFormValues

/-- A field-scoped validation error produced by the zod resolver. -/
structure FieldError where
  field : String
  message : String
  deriving Repr, DecidableEq

/-- `bookSchema`: `z.object` with `isbn`, `title`, `authorName` each
`z.string().min(1, msg)` — a field fails exactly when its length is
below 1, and the error carries the field's own message. -/
def bookSchemaErrors (v : BookFormValues) : List FieldError :=
  (if v.isbn.length < 1 then [{ field := "isbn", message := "ISBN is required" }] else [])
    ++ (if v.title.length < 1 then [{ field := "title", message := "Title is required" }] else [])
    ++ (if v.authorName.length < 1 then [{ field := "authorName", message := "Author name is required" }] else [])

/-- Arguments of a `BooksService.createBook` call. -/
structure CreateBookArgs where
  isbn : String
  title : String
  authorName : String
  deriving Repr, DecidableEq

/-- `form.handleSubmit(onSubmit)`: react-hook-form runs the zod resolver
and calls `onSubmit` — which issues `mutation.mutate(data)`, i.e. a
`createBook` request — only when validation produced no errors.  Returns
the request sent, if any. -/
def handleSubmitAdd (v : BookFormValues) : Option CreateBookArgs :=
  if bookSchemaErrors v = [] then
    some { isbn := v.isbn, title := v.title, authorName := v.authorName }
  else none

/-- A toast notification (`useToast`): `variant` is `some "destructive"`
for error toasts and absent otherwise. -/
structure Toast where
  title : String
  description : String
  variant : Option String
  deriving Repr, DecidableEq

/-- JS `s || fallback` on an optional string: `undefined` and `""` are
falsy. -/
def orFallback (s : Option String) (fallback : String) : String :=
  match s with
  | none => fallback
  | some v => if v = "" then fallback else v

/-- An error object reaching an `onError` handler; `message` may be
absent. -/
structure ApiError where
  message : Option String
  deriving Repr, DecidableEq

/-- The react-query cache: a list of entries `(queryKey, fresh)`.  The
only mutations used by this code are populate-on-fetch and
invalidate-by-key, which marks entries stale. -/
abbrev Cache := List (List String × Bool)

/-- `queryClient.invalidateQueries({ queryKey: key })`: every cache entry
whose key has `key` as a prefix is marked stale. -/
def invalidateQueries (key : List String) (c : Cache) : Cache :=
  c.map (fun e => if key.isPrefixOf e.1 then (e.1, false) else e)

/-- Local state of one `DeleteBook` control instance: the dialog's open
flag (`useState(false)`), the mutation's `isPending` flag, and the toasts
shown so far. -/
structure DeleteBookState where
  openFlag : Bool
  isPending : Bool
  toasts : List Toast
  deriving Repr, DecidableEq

/-- `onSuccess` of the delete mutation: toast
`"Book deleted" / '"<title>" has been deleted successfully.'`, then
`queryClient.invalidateQueries({ queryKey: ["books"] })`, then
`setOpen(false)`.  The mutation has settled, so `isPending` is false. -/
def deleteOnSuccess (book : BookPublic) (s : DeleteBookState) (c : Cache) :
    DeleteBookState × Cache :=
  ( { s with
        toasts := s.toasts ++
          [{ title := "Book deleted"
           , description := "\"" ++ book.title ++ "\" has been deleted successfully."
           , variant := none }]
      , openFlag := false
      , isPending := false }
  , invalidateQueries ["books"] c )

/-- `onError` of the delete mutation: destructive toast with
`error.message || "An error occurred while deleting the book."`; no
`setOpen` call and no cache operation, so the dialog flag and the cache
are untouched. -/
def deleteOnError (err : ApiError) (s : DeleteBookState) (c : Cache) :
    DeleteBookState × Cache :=
  ( { s with
        toasts := s.toasts ++
          [{ title := "Error deleting book"
           , description := orFallback err.message "An error occurred while deleting the book."
           , variant := some "destructive" }]
      , isPending := false }
  , c )

/-- UI events a `DeleteBook` control instance can receive. -/
inductive DeleteEvent
  | clickIcon
  | confirm
  | cancel
  | dismiss
  deriving Repr, DecidableEq

/-- A `BooksService.deleteBook` request. -/
structure DeleteRequest where
  isbn : String
  deriving Repr, DecidableEq

/-- The rendered `AlertDialogAction` button:
`disabled={mutation.isPending}` and label
`mutation.isPending ? "Deleting..." : "Delete"`. -/
structure ActionButton where
  disabled : Bool
  label : String
  deriving Repr, DecidableEq

/-- Render of the confirm button from the pending flag. -/
def deleteActionButton (isPending : Bool) : ActionButton :=
  { disabled := isPending
  , label := if isPending then "Deleting..." else "Delete" }

/-- One UI step of the `DeleteBook` control, returning the next state and
the API request issued, if any.  The icon button's `onClick` is
`setOpen(true)`; `AlertDialogCancel` and dismissal reach
`onOpenChange(false)`, i.e. `setOpen(false)`; the confirm button's
`onClick` is `mutation.mutate()`, which issues
`deleteBook({ isbn: book.isbn })` — but a disabled button
(`disabled={mutation.isPending}`) swallows the click per DOM
semantics. -/
def deleteStep (book : BookPublic) (s : DeleteBookState) (e : DeleteEvent) :
    DeleteBookState × Option DeleteRequest :=
  match e with
  | DeleteEvent.clickIcon => ({ s with openFlag := true }, none)
  | DeleteEvent.confirm =>
      if s.isPending then (s, none)
      else ({ s with isPending := true }, some { isbn := book.isbn })
  | DeleteEvent.cancel => ({ s with openFlag := false }, none)
  | DeleteEvent.dismiss => ({ s with openFlag := false }, none)

/-- A string has length zero exactly when it is the empty string. -/
lemma string_length_eq_zero_iff (s : String) : s.length = 0 ↔ s = "" := by
  constructor
  · intro h
    cases s with
    | mk data =>
        cases data with
        | nil => rfl
        | cons a l => simp [String.length, List.length] at h
  · intro h
    subst h
    rfl

/-- `s.length < 1` over strings coincides with being the empty string. -/
lemma string_length_lt_one_iff (s : String) : s.length < 1 ↔ s = "" := by
  rw [Nat.lt_one_iff, string_length_eq_zero_iff]

/-- The zod resolver reports no errors exactly when all three fields are
non-empty. -/
lemma bookSchemaErrors_eq_nil_iff (v : BookFormValues) :
    bookSchemaErrors v = [] ↔ v.isbn ≠ "" ∧ v.title ≠ "" ∧ v.authorName ≠ "" := by
  rcases v with ⟨i, t, a⟩
  by_cases hi : i = "" <;> by_cases ht : t = "" <;> by_cases ha : a = "" <;>
    simp [bookSchemaErrors, string_length_lt_one_iff, string_length_eq_zero_iff, hi, ht, ha]

/-- C1: for every non-empty query string, submitting the search form sets
the active query to exactly that literal string (no trimming), and the
books table fetch is a `searchBooks` call with that query, `skip = 0`,
`limit = 100`, under cache key `["books", query]`. -/
theorem search_commit_exact_query (q a : String) (h : q ≠ "") :
    (handleSearch { searchQuery := q, activeQuery := a }).activeQuery = q ∧
    booksTableQuery (handleSearch { searchQuery := q, activeQuery := a }) =
      { queryArgs := { query := some q, skip := 0, limit := 100 }
      , queryKey := ["books", q] } := by
  refine ⟨rfl, ?_⟩
  simp [booksTableQuery, handleSearch, getBooksQueryOptions, h]

/-- Witness for C1 at the untrimmed query `" dune "`. -/
theorem search_commit_exact_query_witness :
    (handleSearch { searchQuery := " dune ", activeQuery := "x" }).activeQuery = " dune " ∧
    booksTableQuery (handleSearch { searchQuery := " dune ", activeQuery := "x" }) =
      { queryArgs := { query := some " dune ", skip := 0, limit := 100 }
      , queryKey := ["books", " dune "] } :=
  search_commit_exact_query " dune " "x" (by decide)

/-- C2: when the user's `is_superuser` flag is `false`, absent, or there is
no user at all, the Books header renders no "Add Book" affordance and the
`DeleteBook` component renders nothing (no delete icon): the gate fails
closed in all three cases. -/
theorem role_gate_fails_closed (user : Option User)
    (h : user = none ∨
      ∃ u, user = some u ∧ (u.is_superuser = none ∨ u.is_superuser = some false)) :
    booksHeaderAffordances user = [] ∧
    deleteBookRender user = DeleteBookRender.nothing := by
  rcases h with h | ⟨u, rfl, h⟩
  · subst h
    simp [booksHeaderAffordances, deleteBookRender, userIsSuperuser]
  · rcases h with h | h <;>
      simp [booksHeaderAffordances, deleteBookRender, userIsSuperuser, h]

/-- Witness for C2 at a user whose `is_superuser` flag is absent. -/
theorem role_gate_fails_closed_witness :
    booksHeaderAffordances (some { email := "bob@example.com", full_name := none, is_superuser := none }) = [] ∧
    deleteBookRender (some { email := "bob@example.com", full_name := none, is_superuser := none }) =
      DeleteBookRender.nothing :=
  role_gate_fails_closed _ (Or.inr ⟨_, rfl, Or.inl rfl⟩)

/-- C3: the add route's guard runs on the user fetched via `readUserMe`
before the component mounts; when that user is not a superuser the outcome
is a redirect to `"/books"`, and the form is never rendered. -/
theorem add_route_guard_redirects (u : User) (h : u.is_superuser ≠ some true) :
    addRouteLoad u = AddRouteOutcome.redirected "/books" ∧
    ∀ f, addRouteLoad u ≠ AddRouteOutcome.rendered f := by
  have hb : u.is_superuser.getD false = false := by
    rcases hus : u.is_superuser with _ | b
    · rfl
    · cases b
      · rfl
      · exact absurd hus h
  constructor
  · simp [addRouteLoad, beforeLoad, hb]
  · intro f
    simp [addRouteLoad, beforeLoad, hb]

/-- Witness for C3 at a non-superuser. -/
theorem add_route_guard_redirects_witness :
    addRouteLoad { email := "alice@example.com", full_name := some "Alice", is_superuser := some false } =
      AddRouteOutcome.redirected "/books" ∧
    ∀ f, addRouteLoad { email := "alice@example.com", full_name := some "Alice", is_superuser := some false } ≠
      AddRouteOutcome.rendered f :=
  add_route_guard_redirects _ (by decide)

/-- C4 counterexample: the claim says the error notification carries the
server-provided message, with the generic fallback only when the message
is absent.  With the provided (non-absent) message `""`, the code's
`error.message || fallback` shows the generic fallback instead of the
provided message: the shown description differs from the provided `""`. -/
theorem delete_error_counterexample :
    (deleteOnError { message := some "" }
        { openFlag := true, isPending := true, toasts := [] } []).1.toasts =
      [{ title := "Error deleting book"
       , description := "An error occurred while deleting the book."
       , variant := some "destructive" }] ∧
    ("An error occurred while deleting the book." : String) ≠ "" := by
  exact ⟨rfl, by decide⟩

/-- C4 (amended): on success a toast naming the deleted title is appended,
every cache entry under the `["books"]` key prefix is marked stale, and
the dialog is closed; on failure a destructive toast is appended carrying
the server message when it is present and non-empty (the generic fallback
when it is absent or empty), the dialog flag is unchanged (remains open),
and the cache is untouched. -/
theorem delete_settle_effects (book : BookPublic) (s : DeleteBookState) (c : Cache)
    (err : ApiError) :
    ((deleteOnSuccess book s c).1.toasts =
        s.toasts ++ [{ title := "Book deleted"
                     , description := "\"" ++ book.title ++ "\" has been deleted successfully."
                     , variant := none }] ∧
      (deleteOnSuccess book s c).1.openFlag = false ∧
      (deleteOnSuccess book s c).2 = invalidateQueries ["books"] c ∧
      (∀ e, e ∈ (deleteOnSuccess book s c).2 →
        (["books"] : List String).isPrefixOf e.1 = true → e.2 = false)) ∧
    ((deleteOnError err s c).1.toasts =
        s.toasts ++ [{ title := "Error deleting book"
                     , description := orFallback err.message "An error occurred while deleting the book."
                     , variant := some "destructive" }] ∧
      (deleteOnError err s c).1.openFlag = s.openFlag ∧
      (deleteOnError err s c).2 = c) := by
  refine ⟨⟨rfl, rfl, rfl, ?_⟩, rfl, rfl, rfl⟩
  intro e he hpre
  simp only [deleteOnSuccess, invalidateQueries, List.mem_map] at he
  obtain ⟨x, _, hxe⟩ := he
  by_cases hp : (["books"] : List String).isPrefixOf x.1
  · rw [if_pos hp] at hxe
    rw [← hxe]
  · rw [if_neg hp] at hxe
    rw [← hxe] at hpre
    exact absurd hpre hp

/-- Witness for the amended C4 at a concrete book, state, cache and error. -/
theorem delete_settle_effects_witness :
    (deleteOnSuccess { isbn := "978-0", title := "Dune" }
        { openFlag := true, isPending := true, toasts := [] }
        [(["books", ""], true), (["users"], true)]).2 =
      [(["books", ""], false), (["users"], true)] ∧
    ((["books", ""], false) : List String × Bool).2 = false ∧
    (deleteOnError { message := none }
        { openFlag := true, isPending := true, toasts := [] }
        [(["books", ""], true), (["users"], true)]).2 =
      [(["books", ""], true), (["users"], true)] :=
  ⟨(delete_settle_effects { isbn := "978-0", title := "Dune" }
      { openFlag := true, isPending := true, toasts := [] }
      [(["books", ""], true), (["users"], true)] { message := none }).1.2.2.1.trans (by decide),
   (delete_settle_effects { isbn := "978-0", title := "Dune" }
      { openFlag := true, isPending := true, toasts := [] }
      [(["books", ""], true), (["users"], true)] { message := none }).1.2.2.2
      (["books", ""], false) (by decide) (by decide),
   (delete_settle_effects { isbn := "978-0", title := "Dune" }
      { openFlag := true, isPending := true, toasts := [] }
      [(["books", ""], true), (["users"], true)] { message := none }).2.2.2⟩

/-- C5: a `deleteBook` request is issued only by an explicit confirm, and
a cancel or dismiss emits no request and changes nothing but the dialog's
open flag. -/
theorem delete_confirm_gates_request (book : BookPublic) (s : DeleteBookState)
    (e : DeleteEvent) :
    (∀ r, (deleteStep book s e).2 = some r →
      e = DeleteEvent.confirm ∧ r = { isbn := book.isbn }) ∧
    ((e = DeleteEvent.cancel ∨ e = DeleteEvent.dismiss) →
      (deleteStep book s e).2 = none ∧
      (deleteStep book s e).1 = { s with openFlag := false }) := by
  constructor
  · intro r hr
    cases e with
    | clickIcon => simp [deleteStep] at hr
    | confirm =>
        by_cases hp : s.isPending
        · simp [deleteStep, hp] at hr
        · simp [deleteStep, hp] at hr
          exact ⟨rfl, hr.symm⟩
    | cancel => simp [deleteStep] at hr
    | dismiss => simp [deleteStep] at hr
  · rintro (rfl | rfl) <;> exact ⟨rfl, rfl⟩

/-- Witness for C5 at a concrete cancel event. -/
theorem delete_confirm_gates_request_witness :
    (deleteStep { isbn := "978-0", title := "Dune" }
        { openFlag := true, isPending := false, toasts := [] } DeleteEvent.cancel).2 = none ∧
    (deleteStep { isbn := "978-0", title := "Dune" }
        { openFlag := true, isPending := false, toasts := [] } DeleteEvent.cancel).1 =
      { openFlag := false, isPending := false, toasts := [] } :=
  (delete_confirm_gates_request { isbn := "978-0", title := "Dune" }
    { openFlag := true, isPending := false, toasts := [] } DeleteEvent.cancel).2
    (Or.inl rfl)

/-- C6: a submission with an empty `isbn`, `title` or `authorName` is
blocked (no `createBook` request is sent) with a field-scoped error on the
offending field; a request is sent exactly when all three fields are
non-empty. -/
theorem add_form_validation_blocks (v : BookFormValues) :
    ((v.isbn = "" ∨ v.title = "" ∨ v.authorName = "") → handleSubmitAdd v = none) ∧
    (v.isbn = "" → { field := "isbn", message := "ISBN is required" } ∈ bookSchemaErrors v) ∧
    (v.title = "" → { field := "title", message := "Title is required" } ∈ bookSchemaErrors v) ∧
    (v.authorName = "" →
      { field := "authorName", message := "Author name is required" } ∈ bookSchemaErrors v) ∧
    (v.isbn ≠ "" ∧ v.title ≠ "" ∧ v.authorName ≠ "" →
      handleSubmitAdd v =
        some { isbn := v.isbn, title := v.title, authorName := v.authorName }) := by
  refine ⟨?_, ?_, ?_, ?_, ?_⟩
  · intro h
    have hne : ¬ bookSchemaErrors v = [] := by
      rw [bookSchemaErrors_eq_nil_iff]
      tauto
    simp [handleSubmitAdd, hne]
  · intro h
    simp [bookSchemaErrors, string_length_lt_one_iff, string_length_eq_zero_iff, h]
  · intro h
    simp [bookSchemaErrors, string_length_lt_one_iff, string_length_eq_zero_iff, h]
  · intro h
    simp [bookSchemaErrors, string_length_lt_one_iff, string_length_eq_zero_iff, h]
  · intro h
    have he : bookSchemaErrors v = [] := (bookSchemaErrors_eq_nil_iff v).mpr h
    simp [handleSubmitAdd, he]

/-- Witness for C6: empty title blocks, fully filled form submits. -/
theorem add_form_validation_blocks_witness :
    handleSubmitAdd { isbn := "111", title := "", authorName := "Frank Herbert" } = none ∧
    ({ field := "title", message := "Title is required" } : FieldError) ∈
      bookSchemaErrors { isbn := "111", title := "", authorName := "Frank Herbert" } ∧
    handleSubmitAdd { isbn := "111", title := "Dune", authorName := "Frank Herbert" } =
      some { isbn := "111", title := "Dune", authorName := "Frank Herbert" } :=
  ⟨(add_form_validation_blocks { isbn := "111", title := "", authorName := "Frank Herbert" }).1
      (Or.inr (Or.inl rfl)),
   (add_form_validation_blocks { isbn := "111", title := "", authorName := "Frank Herbert" }).2.2.1 rfl,
   (add_form_validation_blocks { isbn := "111", title := "Dune", authorName := "Frank Herbert" }).2.2.2.2
      ⟨by decide, by decide, by decide⟩⟩

/-- C7: pressing Clear resets both the live input value and the active
query to `""`, and the subsequent table fetch is the unrestricted list:
`searchBooks` with no query restriction, `skip = 0`, `limit = 100`, under
cache key `["books", ""]`. -/
theorem clear_resets_to_unrestricted (s : BooksState) :
    handleClear s = { searchQuery := "", activeQuery := "" } ∧
    booksTableQuery (handleClear s) =
      { queryArgs := { query := none, skip := 0, limit := 100 }
      , queryKey := ["books", ""] } :=
  ⟨rfl, rfl⟩

/-- C8: while the delete mutation is pending, the confirm button is
disabled and labelled "Deleting...", and a confirm click on the pending
control issues no request. -/
theorem delete_pending_blocks_duplicate (book : BookPublic) (s : DeleteBookState)
    (h : s.isPending = true) :
    (deleteActionButton s.isPending).disabled = true ∧
    (deleteActionButton s.isPending).label = "Deleting..." ∧
    (deleteStep book s DeleteEvent.confirm).2 = none := by
  refine ⟨by simp [deleteActionButton, h], by simp [deleteActionButton, h], ?_⟩
  simp [deleteStep, h]

/-- Witness for C8 at a pending control instance. -/
theorem delete_pending_blocks_duplicate_witness :
    (deleteActionButton true).disabled = true ∧
    (deleteActionButton true).label = "Deleting..." ∧
    (deleteStep { isbn := "978-0", title := "Dune" }
        { openFlag := true, isPending := true, toasts := [] } DeleteEvent.confirm).2 = none :=
  delete_pending_blocks_duplicate { isbn := "978-0", title := "Dune" }
    { openFlag := true, isPending := true, toasts := [] } rfl

/-- C9: `skip = 0` and `limit = 100` are passed for every committed query;
for the empty committed query the `query` argument is absent rather than
the empty string, while the cache key still uses the empty string. -/
theorem empty_query_sent_as_absent (q : String) :
    (getBooksQueryOptions q).queryArgs.skip = 0 ∧
    (getBooksQueryOptions q).queryArgs.limit = 100 ∧
    (getBooksQueryOptions "").queryArgs.query = none ∧
    (getBooksQueryOptions "").queryKey = ["books", ""] :=
  ⟨rfl, rfl, rfl, rfl⟩

/-- C10: a row whose `authors` field is `null` — or the empty string,
which is equally falsy — renders the literal fallback "No authors". -/
theorem authors_null_renders_fallback :
    authorsCell none = "No authors" ∧ authorsCell (some "") = "No authors" :=
  ⟨rfl, rfl⟩
